import Mathlib

/-!
Verification of the battle-board game core (frontend/src/game/character.js,
rules.js, board.js, ai/basicAI.js, ai/mctsAI.js).

Characters are mutable heap objects in the source: the two team arrays own
them and the 9x7 grid holds references into those arrays.  The embedding
makes the heap explicit: a `Store` is the list of all `Character` records of
a game, and grid cells hold indices (`Nat`) into that store.  Stateful
methods take the store and the board and return the updated pair, so
reference aliasing (two boards whose cells point into the same store) is
represented faithfully.
-/

/-- The 21 unit kinds of `CharacterType` in character.js, in source order. -/
inductive CharacterType where
  | GENERAL_5 | GENERAL_4 | GENERAL_3 | GENERAL_2 | GENERAL_1
  | COLONEL | LT_COLONEL | MAJOR | CAPTAIN | FIRST_LT | SECOND_LT
  | MASTER_SGT | SGT | CORPORAL
  | BOMB_1 | BOMB_2 | ENGINEER | WUKONG_1 | WUKONG_2 | FLAG | MP
  deriving DecidableEq, Fintype, Repr

/-- The `priority` field of each `CharacterType` entry (lower = stronger). -/
def CharacterType.priority : CharacterType → Nat
  | .GENERAL_5 => 1
  | .GENERAL_4 => 2
  | .GENERAL_3 => 3
  | .GENERAL_2 => 4
  | .GENERAL_1 => 5
  | .COLONEL => 6
  | .LT_COLONEL => 7
  | .MAJOR => 8
  | .CAPTAIN => 9
  | .FIRST_LT => 10
  | .SECOND_LT => 11
  | .MASTER_SGT => 12
  | .SGT => 13
  | .CORPORAL => 14
  | .BOMB_1 => 0
  | .BOMB_2 => 0
  | .ENGINEER => 16
  | .WUKONG_1 => 17
  | .WUKONG_2 => 17
  | .FLAG => 19
  | .MP => 18

/-- The `name` field of each `CharacterType` entry. -/
def CharacterType.displayName : CharacterType → String
  | .GENERAL_5 => "원수"
  | .GENERAL_4 => "대장"
  | .GENERAL_3 => "중장"
  | .GENERAL_2 => "소장"
  | .GENERAL_1 => "준장"
  | .COLONEL => "대령"
  | .LT_COLONEL => "중령"
  | .MAJOR => "소령"
  | .CAPTAIN => "대위"
  | .FIRST_LT => "중위"
  | .SECOND_LT => "소위"
  | .MASTER_SGT => "상사"
  | .SGT => "중사"
  | .CORPORAL => "하사"
  | .BOMB_1 => "폭탄1"
  | .BOMB_2 => "폭탄2"
  | .ENGINEER => "공병"
  | .WUKONG_1 => "손오공1"
  | .WUKONG_2 => "손오공2"
  | .FLAG => "국기"
  | .MP => "헌병"

/-- The enum key string of a kind, as computed for `Character.typeName`
(the `Object.keys(...).find` lookup in the `Character` constructor). -/
def CharacterType.keyName : CharacterType → String
  | .GENERAL_5 => "GENERAL_5"
  | .GENERAL_4 => "GENERAL_4"
  | .GENERAL_3 => "GENERAL_3"
  | .GENERAL_2 => "GENERAL_2"
  | .GENERAL_1 => "GENERAL_1"
  | .COLONEL => "COLONEL"
  | .LT_COLONEL => "LT_COLONEL"
  | .MAJOR => "MAJOR"
  | .CAPTAIN => "CAPTAIN"
  | .FIRST_LT => "FIRST_LT"
  | .SECOND_LT => "SECOND_LT"
  | .MASTER_SGT => "MASTER_SGT"
  | .SGT => "SGT"
  | .CORPORAL => "CORPORAL"
  | .BOMB_1 => "BOMB_1"
  | .BOMB_2 => "BOMB_2"
  | .ENGINEER => "ENGINEER"
  | .WUKONG_1 => "WUKONG_1"
  | .WUKONG_2 => "WUKONG_2"
  | .FLAG => "FLAG"
  | .MP => "MP"

/-- A `Character` instance from character.js: a kind bound to an owner with
mutable alive/revealed state. -/
structure Character where
  type : CharacterType
  playerId : Nat
  isAlive : Bool
  isRevealed : Bool
  deriving DecidableEq, Repr

/-- `get priority()` of a character (delegates to its kind). -/
def Character.priority (c : Character) : Nat := c.type.priority

/-- `get name()` of a character. -/
def Character.name (c : Character) : String := c.type.displayName

/-- `get canMove()`: false only for FLAG, BOMB_1, BOMB_2. -/
def Character.canMove (c : Character) : Bool :=
  c.type ≠ CharacterType.FLAG ∧ c.type ≠ CharacterType.BOMB_1 ∧
    c.type ≠ CharacterType.BOMB_2

/-- `reveal()`: one-way transition of `isRevealed` to true. -/
def Character.reveal (c : Character) : Character := { c with isRevealed := true }

/-- `createFullTeam(playerId)`: the 21 characters of one side, in source order. -/
def createFullTeam (playerId : Nat) : List Character :=
  [⟨.GENERAL_5, playerId, true, false⟩,
   ⟨.GENERAL_4, playerId, true, false⟩,
   ⟨.GENERAL_3, playerId, true, false⟩,
   ⟨.GENERAL_2, playerId, true, false⟩,
   ⟨.GENERAL_1, playerId, true, false⟩,
   ⟨.COLONEL, playerId, true, false⟩,
   ⟨.LT_COLONEL, playerId, true, false⟩,
   ⟨.MAJOR, playerId, true, false⟩,
   ⟨.CAPTAIN, playerId, true, false⟩,
   ⟨.FIRST_LT, playerId, true, false⟩,
   ⟨.SECOND_LT, playerId, true, false⟩,
   ⟨.MASTER_SGT, playerId, true, false⟩,
   ⟨.SGT, playerId, true, false⟩,
   ⟨.CORPORAL, playerId, true, false⟩,
   ⟨.BOMB_1, playerId, true, false⟩,
   ⟨.BOMB_2, playerId, true, false⟩,
   ⟨.ENGINEER, playerId, true, false⟩,
   ⟨.WUKONG_1, playerId, true, false⟩,
   ⟨.WUKONG_2, playerId, true, false⟩,
   ⟨.FLAG, playerId, true, false⟩,
   ⟨.MP, playerId, true, false⟩]

/-- `BattleResult` from rules.js.  The source constructor defaults
`attackerRevealed`/`defenderRevealed` to `true`; call sites below pass the
defaults explicitly. -/
structure BattleResult where
  attackerSurvives : Bool
  defenderSurvives : Bool
  attackerRevealed : Bool
  defenderRevealed : Bool
  deriving DecidableEq, Repr

/-- `get attackerWins()` of `BattleResult`. -/
def BattleResult.attackerWins (r : BattleResult) : Bool :=
  r.attackerSurvives && !r.defenderSurvives

/-- `get defenderWins()` of `BattleResult`. -/
def BattleResult.defenderWins (r : BattleResult) : Bool :=
  !r.attackerSurvives && r.defenderSurvives

/-- `resolveGeneralBattle`: strict priority comparison, lower value wins,
equal priorities kill both; every path reveals both (the default flags). -/
def resolveGeneralBattle (attacker defender : Character) : BattleResult :=
  if attacker.priority < defender.priority then ⟨true, false, true, true⟩
  else if attacker.priority > defender.priority then ⟨false, true, true, true⟩
  else ⟨false, false, true, true⟩

/-- The `topRanks` array of rules.js (the five strongest general kinds). -/
def topRanks : List CharacterType :=
  [.GENERAL_5, .GENERAL_4, .GENERAL_3, .GENERAL_2, .GENERAL_1]

/-- `resolveSpecialBattle` from rules.js, with the source's check order:
flag defender, engineer-vs-bomb (both directions), bomb-vs-ordinary (both
directions), wukong-vs-top-rank (both directions); `none` when no special
rule applies. -/
def resolveSpecialBattle (attacker defender : Character) : Option BattleResult :=
  if defender.type = CharacterType.FLAG then
    some ⟨true, false, true, true⟩
  else if attacker.type = CharacterType.ENGINEER ∧
      (defender.type = CharacterType.BOMB_1 ∨ defender.type = CharacterType.BOMB_2) then
    some ⟨true, false, true, true⟩
  else if defender.type = CharacterType.ENGINEER ∧
      (attacker.type = CharacterType.BOMB_1 ∨ attacker.type = CharacterType.BOMB_2) then
    some ⟨false, true, true, true⟩
  else if (attacker.type = CharacterType.BOMB_1 ∨ attacker.type = CharacterType.BOMB_2) ∧
      (defender.type ≠ CharacterType.BOMB_1 ∧ defender.type ≠ CharacterType.BOMB_2 ∧
        defender.type ≠ CharacterType.ENGINEER) then
    some ⟨true, false, true, true⟩
  else if (defender.type = CharacterType.BOMB_1 ∨ defender.type = CharacterType.BOMB_2) ∧
      (attacker.type ≠ CharacterType.BOMB_1 ∧ attacker.type ≠ CharacterType.BOMB_2 ∧
        attacker.type ≠ CharacterType.ENGINEER) then
    some ⟨false, true, true, true⟩
  else if (attacker.type = CharacterType.WUKONG_1 ∨ attacker.type = CharacterType.WUKONG_2) ∧
      topRanks.contains defender.type then
    some ⟨true, false, true, true⟩
  else if (defender.type = CharacterType.WUKONG_1 ∨ defender.type = CharacterType.WUKONG_2) ∧
      topRanks.contains attacker.type then
    some ⟨false, true, true, true⟩
  else
    none

/-- Result of `resolveBattle`: the post-states of the two participants
(the source mutates them in place through `reveal()`) together with the
returned `BattleResult`. -/
structure ResolveOut where
  attacker : Character
  defender : Character
  result : BattleResult
  deriving DecidableEq, Repr

/-- `resolveBattle` from rules.js.  When the attacker is MP the source calls
`defender.reveal()` and falls to the general comparison; symmetrically when
the defender is MP; otherwise it tries `resolveSpecialBattle` and falls back
to the general comparison.  The participant fields of the output carry the
in-place mutations the source performs on its arguments. -/
def resolveBattle (attacker defender : Character) : ResolveOut :=
  if attacker.type = CharacterType.MP then
    let d2 := defender.reveal
    ⟨attacker, d2, resolveGeneralBattle attacker d2⟩
  else if defender.type = CharacterType.MP then
    let a2 := attacker.reveal
    ⟨a2, defender, resolveGeneralBattle a2 defender⟩
  else
    match resolveSpecialBattle attacker defender with
    | some r => ⟨attacker, defender, r⟩
    | none => ⟨attacker, defender, resolveGeneralBattle attacker defender⟩

/-- `Position` from board.js.  Rows and columns are JS numbers; candidate
neighbour positions may be negative before the validity check, so the fields
are integers. -/
structure Position where
  row : Int
  col : Int
  deriving DecidableEq, Repr

/-- `Move` from board.js: an ordered pair of positions. -/
structure Move where
  fromPos : Position
  toPos : Position
  deriving DecidableEq, Repr

/-- The explicit heap of `Character` objects of one game. -/
abbrev Store := List Character

/-- The 9x7 grid: each cell is empty or a reference (store index) to a
character. -/
abbrev Grid := List (List (Option Nat))

/-- The `lastBattle` record stored by `makeMove` (names and the four
resolver flags). -/
structure LastBattle where
  attacker : String
  defender : String
  attackerSurvives : Bool
  defenderSurvives : Bool
  attackerRevealed : Bool
  defenderRevealed : Bool
  deriving DecidableEq, Repr

/-- `GameBoard` state: the grid of character references, the two team
reference arrays, and the scalar game state.  The characters themselves live
in the ambient `Store`. -/
structure GameBoard where
  board : Grid
  aiTeam : List Nat
  playerTeam : List Nat
  currentPlayer : Nat
  gameOver : Bool
  winner : Option Nat
  lastBattle : Option LastBattle
  deriving DecidableEq, Repr

/-- `GameBoard.ROWS`. -/
def boardRows : Nat := 9

/-- `GameBoard.COLS`. -/
def boardCols : Nat := 7

/-- `isValidPosition(pos)`. -/
def isValidPosition (pos : Position) : Bool :=
  0 ≤ pos.row ∧ pos.row < (boardRows : Int) ∧ 0 ≤ pos.col ∧ pos.col < (boardCols : Int)

/-- The grid cell at a position: `this.board[pos.row][pos.col]` guarded by
`isValidPosition`, yielding the stored character reference if any. -/
def gridCell (b : GameBoard) (pos : Position) : Option Nat :=
  if isValidPosition pos then
    (b.board.getD pos.row.toNat []).getD pos.col.toNat none
  else none

/-- `getCharacter(pos)`: dereference the cell through the store. -/
def getCharacter (s : Store) (b : GameBoard) (pos : Position) : Option Character :=
  (gridCell b pos).bind fun i => s.get? i

/-- Write a cell of the grid (a `this.board[r][c] = v` assignment). -/
def gridSet (g : Grid) (pos : Position) (v : Option Nat) : Grid :=
  g.set pos.row.toNat ((g.getD pos.row.toNat []).set pos.col.toNat v)

/-- `getValidMoves(pos)` from board.js: empty unless the cell holds a living,
movable character of the current player; otherwise the up/down/left/right
neighbours that are on-board and empty or hold an opposing character, in
that direction order. -/
def getValidMoves (s : Store) (b : GameBoard) (pos : Position) : List Move :=
  match getCharacter s b pos with
  | none => []
  | some character =>
    if character.isAlive = false then []
    else if character.canMove = false then []
    else if character.playerId ≠ b.currentPlayer then []
    else
      let directions : List (Int × Int) := [(-1, 0), (1, 0), (0, -1), (0, 1)]
      directions.filterMap fun dir =>
        let newPos : Position := ⟨pos.row + dir.1, pos.col + dir.2⟩
        if isValidPosition newPos = false then none
        else
          match getCharacter s b newPos with
          | none => some ⟨pos, newPos⟩
          | some target =>
            if target.playerId ≠ character.playerId then some ⟨pos, newPos⟩ else none

/-- Outcome of `makeMove`: the updated store (character mutations), the
updated board, and the boolean result. -/
structure MoveOutcome where
  store : Store
  board : GameBoard
  ok : Bool
  deriving DecidableEq, Repr

/-- `makeMove(move)` from board.js.  Fails (returning the state unchanged)
when no character sits at the origin or the move is not among
`getValidMoves(move.fromPos)` compared by from/to positions.  Otherwise:
quiet relocation when the destination is empty, or battle resolution —
recording `lastBattle`, killing and removing non-survivors, moving a
surviving attacker, applying the reveal flags, and setting
`gameOver`/`winner` when the defender was the flag and died.  The turn
toggles on every success. -/
def makeMove (s : Store) (b : GameBoard) (m : Move) : MoveOutcome :=
  match gridCell b m.fromPos with
  | none => ⟨s, b, false⟩
  | some i =>
    match s.get? i with
    | none => ⟨s, b, false⟩
    | some character =>
      let validMoves := getValidMoves s b m.fromPos
      let isValid := validMoves.any fun mv =>
        decide (mv.fromPos = m.fromPos) && decide (mv.toPos = m.toPos)
      if isValid = false then ⟨s, b, false⟩
      else
        let quiet : MoveOutcome :=
          let g1 := gridSet b.board m.toPos (some i)
          let g2 := gridSet g1 m.fromPos none
          ⟨s, { b with board := g2, lastBattle := none,
                       currentPlayer := 1 - b.currentPlayer }, true⟩
        match gridCell b m.toPos with
        | none => quiet
        | some j =>
          match s.get? j with
          | none => quiet
          | some target =>
            let ro := resolveBattle character target
            let res := ro.result
            let lb : LastBattle :=
              ⟨character.name, target.name, res.attackerSurvives, res.defenderSurvives,
               res.attackerRevealed, res.defenderRevealed⟩
            let g1 := if res.attackerSurvives = false then gridSet b.board m.fromPos none
                      else b.board
            let g2 := if res.defenderSurvives = false then gridSet g1 m.toPos none else g1
            let g3 :=
              if res.attackerSurvives = true then
                let ga := gridSet g2 m.toPos (some i)
                if m.fromPos ≠ m.toPos then gridSet ga m.fromPos none else ga
              else g2
            let a1 := if res.attackerSurvives = false then { ro.attacker with isAlive := false }
                      else ro.attacker
            let d1 := if res.defenderSurvives = false then { ro.defender with isAlive := false }
                      else ro.defender
            let a2 := if res.attackerRevealed = true then a1.reveal else a1
            let d2 := if res.defenderRevealed = true then d1.reveal else d1
            let s2 := (s.set i a2).set j d2
            let flagCaptured : Bool := target.type = CharacterType.FLAG ∧ d2.isAlive = false
            ⟨s2,
             { b with board := g3, lastBattle := some lb,
                      gameOver := if flagCaptured then true else b.gameOver,
                      winner := if flagCaptured then some character.playerId else b.winner,
                      currentPlayer := 1 - b.currentPlayer }, true⟩

/-- `getAllValidMoves(playerId)`: row-major scan over the grid, collecting
`(pos, move)` pairs for every living character of the player. -/
def getAllValidMoves (s : Store) (b : GameBoard) (playerId : Nat) : List (Position × Move) :=
  (List.range boardRows).flatMap fun r =>
    (List.range boardCols).flatMap fun c =>
      let pos : Position := ⟨(r : Int), (c : Int)⟩
      match getCharacter s b pos with
      | none => []
      | some character =>
        if character.isAlive = true ∧ character.playerId = playerId then
          (getValidMoves s b pos).map fun mv => (pos, mv)
        else []

/-- `clone()` from board.js.  The source copies the 2D array of references
(`this.board.map(row => [...row])`) and the team reference arrays
(`[...this.aiTeam]`), and copies the scalar fields; it allocates no new
`Character` objects.  In the explicit-heap embedding this is a board whose
cells are the same store indices — the store is untouched, so the clone's
characters alias the original's. -/
def GameBoard.clone (b : GameBoard) : GameBoard :=
  { board := b.board.map fun row => row.map id,
    aiTeam := b.aiTeam.map id,
    playerTeam := b.playerTeam.map id,
    currentPlayer := b.currentPlayer,
    gameOver := b.gameOver,
    winner := b.winner,
    lastBattle := b.lastBattle }

/-- A cell of `getBoardState`: the full-identity record or the opaque
placeholder (the source pushes plain objects with these six fields). -/
structure CellView where
  name : String
  type : String
  player_id : Nat
  is_alive : Bool
  is_revealed : Bool
  priority : Option Nat
  deriving DecidableEq, Repr

/-- Projection of one grid cell for `getBoardState(forPlayer)`: empty stays
empty; a character owned by `forPlayer` or revealed is shown fully; any
other character becomes the hidden placeholder. -/
def cellView (s : Store) (forPlayer : Nat) (cell : Option Nat) : Option CellView :=
  match cell with
  | none => none
  | some i =>
    match s.get? i with
    | none => none
    | some character =>
      if character.playerId = forPlayer ∨ character.isRevealed = true then
        some ⟨character.name, character.type.keyName, character.playerId,
              character.isAlive, character.isRevealed, some character.priority⟩
      else
        some ⟨"???", "HIDDEN", character.playerId, character.isAlive, false, none⟩

/-- `getBoardState(forPlayer)` from board.js: the per-cell projection over
the whole grid. -/
def getBoardState (s : Store) (b : GameBoard) (forPlayer : Nat) : List (List (Option CellView)) :=
  (List.range boardRows).map fun r =>
    (List.range boardCols).map fun c =>
      cellView s forPlayer ((b.board.getD r []).getD c none)

/-- `isGameOver()`. -/
def GameBoard.isGameOver (b : GameBoard) : Bool := b.gameOver

/-- `getWinner()`. -/
def GameBoard.getWinner (b : GameBoard) : Option Nat := b.winner

/-- The empty 9x7 grid built by the `GameBoard` constructor. -/
def emptyGrid : Grid :=
  (List.range boardRows).map fun _ => (List.range boardCols).map fun _ => none

/-- The store allocated by the `GameBoard` constructor: the AI team
(player 0) followed by the player team (player 1). -/
def initStore : Store := createFullTeam 0 ++ createFullTeam 1

/-- The `GameBoard` constructor state: empty grid, the two teams as
reference arrays into `initStore`, player 1 to move, game not over, no
winner, no battle log. -/
def GameBoard.init : GameBoard :=
  { board := emptyGrid,
    aiTeam := List.range 21,
    playerTeam := (List.range 21).map fun k => 21 + k,
    currentPlayer := 1,
    gameOver := false,
    winner := none,
    lastBattle := none }

/-- `setupBoard(playerPositions)` from board.js, with the two shuffled index
permutations passed explicitly (the source draws them from the ambient
random generator).  AI characters fill rows 0–2 and player characters rows
6–8, each in row-major order through its permutation. -/
def setupBoard (b : GameBoard) (aiPositions playerPositions : List Nat) : GameBoard :=
  let place : Grid → List Nat → List Nat → Nat → Grid := fun g team perm startRow =>
    (List.range 21).foldl
      (fun g2 idx =>
        let row := startRow + idx / boardCols
        let col := idx % boardCols
        let charIdx := perm.getD idx 0
        gridSet g2 ⟨(row : Int), (col : Int)⟩ (team.get? charIdx)) g
  let g1 := place b.board b.aiTeam aiPositions 0
  let g2 := place g1 b.playerTeam playerPositions (boardRows - 3)
  { b with board := g2 }

/-- An element of basicAI.js `winningMoves`: the move together with the
recorded target priority (`target.isRevealed ? target.priority : 10`). -/
structure WinEntry where
  move : Move
  priority : Nat
  deriving DecidableEq, Repr

/-- `findFlagCaptureMoves` from basicAI.js: the moves whose destination
holds the opponent's flag. -/
def findFlagCaptureMoves (s : Store) (b : GameBoard) (allMoves : List (Position × Move)) :
    List Move :=
  allMoves.filterMap fun pm =>
    match getCharacter s b pm.2.toPos with
    | some target => if target.type = CharacterType.FLAG then some pm.2 else none
    | none => none

/-- `findWinningBattles` from basicAI.js.  For every capturing move it calls
`resolveBattle` on the live characters — which mutates them (the MP forced
reveal), so the store is threaded through — and records the move when the
attacker wins, with the target's priority read after the simulation call
(10 when the target is still unrevealed). -/
def findWinningBattles (s : Store) (b : GameBoard) (allMoves : List (Position × Move)) :
    Store × List WinEntry :=
  allMoves.foldl
    (fun st pm =>
      match gridCell b pm.1, gridCell b pm.2.toPos with
      | some i, some j =>
        (match st.1.get? i, st.1.get? j with
         | some attacker, some target =>
           let ro := resolveBattle attacker target
           let s1 := (st.1.set i ro.attacker).set j ro.defender
           if ro.result.attackerWins then
             let targetPriority := if ro.defender.isRevealed then ro.defender.priority else 10
             (s1, st.2 ++ [⟨pm.2, targetPriority⟩])
           else (s1, st.2)
         | _, _ => st)
      | _, _ => st)
    (s, [])

/-- Head of `winningBattles.sort((a, b) => b.priority - a.priority)` in
basicAI.js: JS `sort` is stable, so the head of the descending sort is the
first-enumerated entry of maximal priority, which this fold computes. -/
def pickBestWinning (hd : WinEntry) (tl : List WinEntry) : WinEntry :=
  tl.foldl (fun best e => if best.priority < e.priority then e else best) hd

/-- The deterministic fragment of `BasicAI.getMove` covering strategy
classes 1 and 2: `none` when the decision falls to a randomized class (no
legal move, a flag capture exists, or no winning battle exists); otherwise
the winning-battle move the source returns deterministically. -/
def basicAIMoveClass12 (s : Store) (b : GameBoard) (playerId : Nat) : Option Move :=
  let allMoves := getAllValidMoves s b playerId
  if allMoves.isEmpty then none
  else
    let flagCaptureMoves := findFlagCaptureMoves s b allMoves
    if flagCaptureMoves.isEmpty = false then none
    else
      match (findWinningBattles s b allMoves).2 with
      | [] => none
      | e :: es => some (pickBestWinning e es).move

/-- Result of an MCTS simulation playout: the value of
`simBoard.getWinner()` when the playout ended on a finished game, or the
`-1` draw marker. -/
inductive SimResult where
  | winnerOf (w : Option Nat)
  | draw
  deriving DecidableEq, Repr

/-- `selectSimulationMove` from mctsAI.js: the first flag-capturing move in
enumeration order if any, else a random legal move; the random draw is
modelled by the `pick` index into the move list. -/
def selectSimulationMove (s : Store) (b : GameBoard) (allMoves : List (Position × Move))
    (pick : Nat) : Option Move :=
  match allMoves.find? (fun pm =>
      match getCharacter s b pm.2.toPos with
      | some target => decide (target.type = CharacterType.FLAG)
      | none => false) with
  | some pm => some pm.2
  | none => (allMoves.map fun pm => pm.2).get? (pick % allMoves.length)

/-- The `while (!simBoard.isGameOver() && moves < maxMoves)` loop of
`MCTSAI.simulate`, with `fuel` the remaining iterations
(`maxMoves - moves`) and `moves` the loop counter; `choice` supplies the
random draw of each ply.  Returns the final store, board and counter. -/
def simulateAux (choice : Nat → Nat) : Nat → Store → GameBoard → Nat → Store × GameBoard × Nat
  | 0, s, b, moves => (s, b, moves)
  | fuel + 1, s, b, moves =>
    if b.gameOver then (s, b, moves)
    else
      let allMoves := getAllValidMoves s b b.currentPlayer
      if allMoves.isEmpty then (s, b, moves)
      else
        match selectSimulationMove s b allMoves (choice moves) with
        | some mv =>
          let out := makeMove s b mv
          simulateAux choice fuel out.store out.board (moves + 1)
        | none => simulateAux choice fuel s b (moves + 1)

/-- `MCTSAI.simulate(board)` with `maxMoves = 100`: runs the playout loop on
a clone of the board (the clone shares the store) and returns the source's
return value — the winner when the final board is game-over, the draw
marker otherwise — paired with the final value of its `moves` counter. -/
def simulate (choice : Nat → Nat) (s : Store) (b : GameBoard) : SimResult × Nat :=
  let r := simulateAux choice 100 s b.clone 0
  (if r.2.1.gameOver then SimResult.winnerOf r.2.1.winner else SimResult.draw, r.2.2)

/-- An empty grid row. -/
def row7 : List (Option Nat) := [none, none, none, none, none, none, none]

/-- Fixture for clone aliasing: store with a player-0 SGT (index 0) and a
player-1 GENERAL_5 (index 1). -/
def cloneStore : Store := [⟨.SGT, 0, true, false⟩, ⟨.GENERAL_5, 1, true, false⟩]

/-- Fixture board: GENERAL_5 of player 1 at (4,0), SGT of player 0 at (4,1),
player 1 to move. -/
def cloneBoard : GameBoard :=
  { board := [row7, row7, row7, row7,
              [some 1, some 0, none, none, none, none, none],
              row7, row7, row7, row7],
    aiTeam := [0], playerTeam := [1],
    currentPlayer := 1, gameOver := false, winner := none, lastBattle := none }

/-- Fixture for flag capture: player-1 GENERAL_5 at (4,1), player-0 FLAG at
(4,2), player-0 COLONEL at (0,0), player 1 to move. -/
def flagStore : Store :=
  [⟨.GENERAL_5, 1, true, false⟩, ⟨.FLAG, 0, true, false⟩, ⟨.COLONEL, 0, true, false⟩]

/-- Board for the flag-capture fixture. -/
def flagBoard : GameBoard :=
  { board := [[some 2, none, none, none, none, none, none],
              row7, row7, row7,
              [none, some 0, some 1, none, none, none, none],
              row7, row7, row7, row7],
    aiTeam := [1, 2], playerTeam := [0],
    currentPlayer := 1, gameOver := false, winner := none, lastBattle := none }

/-- The MP attacker used in the C4 counterexample. -/
def mpAttacker : Character := ⟨.MP, 0, true, false⟩

/-- The unrevealed defender used in the C4 counterexample. -/
def hiddenDefender : Character := ⟨.GENERAL_5, 1, true, false⟩

/-- Fixture for the winning-battle choice: player-0 GENERAL_5 at (2,0) and
GENERAL_4 at (2,2); revealed player-1 GENERAL_3 at (3,0) and revealed
player-1 CORPORAL at (3,2); player 0 to move; no flag in reach. -/
def winStore : Store :=
  [⟨.GENERAL_5, 0, true, false⟩, ⟨.GENERAL_3, 1, true, true⟩,
   ⟨.GENERAL_4, 0, true, false⟩, ⟨.CORPORAL, 1, true, true⟩]

/-- Board for the winning-battle fixture. -/
def winBoard : GameBoard :=
  { board := [row7, row7,
              [some 0, none, some 2, none, none, none, none],
              [some 1, none, some 3, none, none, none, none],
              row7, row7, row7, row7, row7],
    aiTeam := [0, 2], playerTeam := [1, 3],
    currentPlayer := 0, gameOver := false, winner := none, lastBattle := none }

/-- The battle result as a function of the two kinds alone (`resolveBattle`
reads nothing but the kinds and their priorities). -/
def battleOutcome (t u : CharacterType) : BattleResult :=
  (resolveBattle ⟨t, 0, true, false⟩ ⟨u, 1, true, false⟩).result

/-- Agreement of two optional characters as seen through the `forPlayer`
projection: same owner, same alive and revealed flags, and identical
characters whenever the cell is shown with full identity (owned by the
viewer or revealed). -/
def viewAgree (forPlayer : Nat) : Option Character → Option Character → Bool
  | none, none => true
  | some c1, some c2 =>
    decide (c1.playerId = c2.playerId) && decide (c1.isAlive = c2.isAlive) &&
      decide (c1.isRevealed = c2.isRevealed) &&
      (!(decide (c1.playerId = forPlayer) || c1.isRevealed) || decide (c1 = c2))
  | _, _ => false

/-- A store differing from `cloneStore` only in the kind of the
still-hidden player-0 unit at index 0 (CAPTAIN instead of SGT). -/
def cloneStoreVariant : Store := [⟨.CAPTAIN, 0, true, false⟩, ⟨.GENERAL_5, 1, true, false⟩]

/-- C1: the claim requires `clone()` to duplicate every unit so that moves
on the clone leave the original board's cells and unit fields unchanged.
The source's `clone` copies only the arrays of references, so the clone's
battle kills and reveals characters that the original board still
references: after `makeMove` on the clone, the original board's unit at
(4,1) — alive before — is dead, and its unit at (4,0) is revealed.  This
evaluates the code at the failing input of the C1 code bug. -/
theorem C1_clone_shares_units :
    (makeMove cloneStore cloneBoard.clone ⟨⟨4, 0⟩, ⟨4, 1⟩⟩).ok = true ∧
    (getCharacter cloneStore cloneBoard ⟨4, 1⟩).map Character.isAlive = some true ∧
    (getCharacter (makeMove cloneStore cloneBoard.clone ⟨⟨4, 0⟩, ⟨4, 1⟩⟩).store
        cloneBoard ⟨4, 1⟩).map Character.isAlive = some false ∧
    (getCharacter cloneStore cloneBoard ⟨4, 0⟩).map Character.isRevealed = some false ∧
    (getCharacter (makeMove cloneStore cloneBoard.clone ⟨⟨4, 0⟩, ⟨4, 1⟩⟩).store
        cloneBoard ⟨4, 0⟩).map Character.isRevealed = some true := by decide

/-- C3 counterexample: capturing the flag does set `gameOver` and `winner`,
but the claim's "no further moves are legal" part is false — neither
`getValidMoves` nor `makeMove` consults `gameOver`, so after the capture the
opposing COLONEL still has legal moves and `makeMove` still accepts one. -/
theorem C3_moves_after_gameOver :
    (makeMove flagStore flagBoard ⟨⟨4, 1⟩, ⟨4, 2⟩⟩).ok = true ∧
    (makeMove flagStore flagBoard ⟨⟨4, 1⟩, ⟨4, 2⟩⟩).board.gameOver = true ∧
    (makeMove flagStore flagBoard ⟨⟨4, 1⟩, ⟨4, 2⟩⟩).board.winner = some 1 ∧
    getValidMoves (makeMove flagStore flagBoard ⟨⟨4, 1⟩, ⟨4, 2⟩⟩).store
      (makeMove flagStore flagBoard ⟨⟨4, 1⟩, ⟨4, 2⟩⟩).board ⟨0, 0⟩ ≠ [] ∧
    (makeMove (makeMove flagStore flagBoard ⟨⟨4, 1⟩, ⟨4, 2⟩⟩).store
      (makeMove flagStore flagBoard ⟨⟨4, 1⟩, ⟨4, 2⟩⟩).board ⟨⟨0, 0⟩, ⟨1, 0⟩⟩).ok = true := by
  decide

/-- C4 counterexample: `resolveBattle` is not pure — with an MP attacker it
mutates the defender, flipping `isRevealed` from false to true, so the
defender's post-state differs from its input state. -/
theorem C4_resolveBattle_mutates :
    hiddenDefender.isRevealed = false ∧
    (resolveBattle mpAttacker hiddenDefender).defender.isRevealed = true ∧
    (resolveBattle mpAttacker hiddenDefender).defender ≠ hiddenDefender := by decide

/-- C6 counterexample: with class 1 empty and two winning battles — one on
a revealed priority-3 target and one on a revealed priority-14 target — the
claim picks the lowest-priority (strongest) target (3), but the source
sorts descending and takes the head, returning the attack on the
priority-14 (weakest) target. -/
theorem C6_picks_weakest_target :
    findFlagCaptureMoves winStore winBoard (getAllValidMoves winStore winBoard 0) = [] ∧
    (findWinningBattles winStore winBoard (getAllValidMoves winStore winBoard 0)).2 =
      [⟨⟨⟨2, 0⟩, ⟨3, 0⟩⟩, 3⟩, ⟨⟨⟨2, 2⟩, ⟨3, 2⟩⟩, 14⟩] ∧
    basicAIMoveClass12 winStore winBoard 0 = some ⟨⟨2, 2⟩, ⟨3, 2⟩⟩ ∧
    (getCharacter winStore winBoard ⟨3, 0⟩).map Character.priority = some 3 ∧
    (getCharacter winStore winBoard ⟨3, 0⟩).map Character.isRevealed = some true := by decide

/-- C10: a freshly constructed `GameBoard` — before and after `setupBoard`,
for every pair of shuffle permutations — has `currentPlayer = 1` (the human
player moves first), `gameOver = false`, no winner, and no battle log. -/
theorem C10_initial_turn_state :
    GameBoard.init.currentPlayer = 1 ∧ GameBoard.init.gameOver = false ∧
    GameBoard.init.winner = none ∧ GameBoard.init.lastBattle = none ∧
    ∀ aiPositions playerPositions : List Nat,
      (setupBoard GameBoard.init aiPositions playerPositions).currentPlayer = 1 ∧
      (setupBoard GameBoard.init aiPositions playerPositions).gameOver = false ∧
      (setupBoard GameBoard.init aiPositions playerPositions).winner = none ∧
      (setupBoard GameBoard.init aiPositions playerPositions).lastBattle = none := by
  exact ⟨rfl, rfl, rfl, rfl, fun p q => ⟨rfl, rfl, rfl, rfl⟩⟩

/-- C4 (amended): `resolveBattle` never changes `isAlive` of either
participant, and changes no participant state at all except the forced
reveal of the military-police rule: with an MP attacker it reveals the
defender, with an MP defender (and non-MP attacker) it reveals the
attacker, and in every other battle both participants come back exactly as
they went in. -/
theorem C4_mutation_only_forced_reveal (a d : Character) :
    (resolveBattle a d).attacker.isAlive = a.isAlive ∧
    (resolveBattle a d).defender.isAlive = d.isAlive ∧
    (a.type = CharacterType.MP →
      (resolveBattle a d).attacker = a ∧ (resolveBattle a d).defender = d.reveal) ∧
    (a.type ≠ CharacterType.MP → d.type = CharacterType.MP →
      (resolveBattle a d).attacker = a.reveal ∧ (resolveBattle a d).defender = d) ∧
    (a.type ≠ CharacterType.MP → d.type ≠ CharacterType.MP →
      (resolveBattle a d).attacker = a ∧ (resolveBattle a d).defender = d) := by
  by_cases h1 : a.type = CharacterType.MP
  · simp [resolveBattle, h1, Character.reveal]
  · by_cases h2 : d.type = CharacterType.MP
    · simp [resolveBattle, h1, h2, Character.reveal]
    · cases hs : resolveSpecialBattle a d <;> simp [resolveBattle, h1, h2, hs]

/-- Witness for C4's amended theorem at the MP-attacker fixture. -/
theorem C4_mutation_only_forced_reveal_witness :
    (resolveBattle mpAttacker hiddenDefender).attacker = mpAttacker ∧
    (resolveBattle mpAttacker hiddenDefender).defender = hiddenDefender.reveal :=
  (C4_mutation_only_forced_reveal mpAttacker hiddenDefender).2.2.1 rfl

/-- C5: in a battle with exactly one military-police participant, the other
participant comes out of `resolveBattle` revealed (whatever the priority
outcome), the MP's own `isRevealed` is untouched by this rule, and the
returned survivorship flags are those of the general priority
comparison. -/
theorem C5_mp_reveal_single_sided (a d : Character)
    (h : (a.type = CharacterType.MP ∧ d.type ≠ CharacterType.MP) ∨
         (a.type ≠ CharacterType.MP ∧ d.type = CharacterType.MP)) :
    (a.type = CharacterType.MP →
      (resolveBattle a d).defender.isRevealed = true ∧
      (resolveBattle a d).attacker.isRevealed = a.isRevealed) ∧
    (d.type = CharacterType.MP →
      (resolveBattle a d).attacker.isRevealed = true ∧
      (resolveBattle a d).defender.isRevealed = d.isRevealed) ∧
    (resolveBattle a d).result = resolveGeneralBattle a d := by
  rcases h with ⟨h1, h2⟩ | ⟨h1, h2⟩ <;>
    simp [resolveBattle, h1, h2, Character.reveal, resolveGeneralBattle, Character.priority]

/-- Witness for C5 where the MP attacker loses the priority comparison to a
hidden GENERAL_5 and the defender is still forced revealed. -/
theorem C5_mp_reveal_single_sided_witness :
    (resolveBattle mpAttacker hiddenDefender).defender.isRevealed = true ∧
    (resolveBattle mpAttacker hiddenDefender).result =
      resolveGeneralBattle mpAttacker hiddenDefender :=
  ⟨((C5_mp_reveal_single_sided mpAttacker hiddenDefender (Or.inl ⟨rfl, by decide⟩)).1 rfl).1,
   (C5_mp_reveal_single_sided mpAttacker hiddenDefender (Or.inl ⟨rfl, by decide⟩)).2.2⟩

/-- `resolveSpecialBattle` inspects only the participants' kinds. -/
theorem resolveSpecialBattle_only_types (a d : Character) :
    resolveSpecialBattle ⟨a.type, 0, true, false⟩ ⟨d.type, 1, true, false⟩ =
      resolveSpecialBattle a d := rfl

/-- The returned `BattleResult` of `resolveBattle` depends only on the two
participants' kinds. -/
theorem resolveBattle_result_only_types (a d : Character) :
    (resolveBattle a d).result = battleOutcome a.type d.type := by
  unfold battleOutcome resolveBattle
  by_cases h1 : a.type = CharacterType.MP
  · simp [h1, Character.reveal, resolveGeneralBattle, Character.priority]
  · by_cases h2 : d.type = CharacterType.MP
    · simp [h1, h2, Character.reveal, resolveGeneralBattle, Character.priority]
    · simp only [h1, h2, if_false, if_neg, ite_false]
      rw [resolveSpecialBattle_only_types]
      cases hs : resolveSpecialBattle a d <;>
        simp [hs, h1, h2, resolveGeneralBattle, Character.priority]

/-- C7, first case over kinds: a BOMB attacking an ENGINEER dies. -/
theorem battleOutcome_bomb_vs_engineer :
    ∀ t u : CharacterType,
      (t = CharacterType.BOMB_1 ∨ t = CharacterType.BOMB_2) → u = CharacterType.ENGINEER →
        (battleOutcome t u).attackerSurvives = false ∧
        (battleOutcome t u).defenderSurvives = true := by decide

/-- C7, second case over kinds: an ENGINEER attacking a BOMB kills it. -/
theorem battleOutcome_engineer_vs_bomb :
    ∀ t u : CharacterType,
      (u = CharacterType.BOMB_1 ∨ u = CharacterType.BOMB_2) → t = CharacterType.ENGINEER →
        (battleOutcome t u).attackerSurvives = true ∧
        (battleOutcome t u).defenderSurvives = false := by decide

/-- C7, third case over kinds: a BOMB attacking any non-BOMB non-ENGINEER
kind survives and kills it. -/
theorem battleOutcome_bomb_attacks_other :
    ∀ t u : CharacterType,
      (t = CharacterType.BOMB_1 ∨ t = CharacterType.BOMB_2) →
        (u ≠ CharacterType.BOMB_1 ∧ u ≠ CharacterType.BOMB_2 ∧
          u ≠ CharacterType.ENGINEER) →
        (battleOutcome t u).attackerSurvives = true ∧
        (battleOutcome t u).defenderSurvives = false := by decide

/-- C7, fourth case over kinds: any non-BOMB non-ENGINEER kind attacking a
BOMB dies to it. -/
theorem battleOutcome_other_attacks_bomb :
    ∀ t u : CharacterType,
      (u = CharacterType.BOMB_1 ∨ u = CharacterType.BOMB_2) →
        (t ≠ CharacterType.BOMB_1 ∧ t ≠ CharacterType.BOMB_2 ∧
          t ≠ CharacterType.ENGINEER) →
        (battleOutcome t u).attackerSurvives = false ∧
        (battleOutcome t u).defenderSurvives = true := by decide

/-- C7: in every battle with one BOMB participant, an ENGINEER opponent
kills the bomb, and every other kind dies to the bomb regardless of
priority — with the same outcome whichever side is the attacker. -/
theorem C7_bomb_battle_outcomes (a d : Character) :
    ((a.type = CharacterType.BOMB_1 ∨ a.type = CharacterType.BOMB_2) →
      d.type = CharacterType.ENGINEER →
      (resolveBattle a d).result.attackerSurvives = false ∧
      (resolveBattle a d).result.defenderSurvives = true) ∧
    ((d.type = CharacterType.BOMB_1 ∨ d.type = CharacterType.BOMB_2) →
      a.type = CharacterType.ENGINEER →
      (resolveBattle a d).result.attackerSurvives = true ∧
      (resolveBattle a d).result.defenderSurvives = false) ∧
    ((a.type = CharacterType.BOMB_1 ∨ a.type = CharacterType.BOMB_2) →
      d.type ≠ CharacterType.BOMB_1 → d.type ≠ CharacterType.BOMB_2 →
      d.type ≠ CharacterType.ENGINEER →
      (resolveBattle a d).result.attackerSurvives = true ∧
      (resolveBattle a d).result.defenderSurvives = false) ∧
    ((d.type = CharacterType.BOMB_1 ∨ d.type = CharacterType.BOMB_2) →
      a.type ≠ CharacterType.BOMB_1 → a.type ≠ CharacterType.BOMB_2 →
      a.type ≠ CharacterType.ENGINEER →
      (resolveBattle a d).result.attackerSurvives = false ∧
      (resolveBattle a d).result.defenderSurvives = true) := by
  simp only [resolveBattle_result_only_types]
  refine ⟨battleOutcome_bomb_vs_engineer a.type d.type,
         battleOutcome_engineer_vs_bomb a.type d.type,
         fun hb h1 h2 h3 => battleOutcome_bomb_attacks_other a.type d.type hb ⟨h1, h2, h3⟩,
         fun hb h1 h2 h3 => battleOutcome_other_attacks_bomb a.type d.type hb ⟨h1, h2, h3⟩⟩

/-- Witness for C7 at an ENGINEER attacking a BOMB. -/
theorem C7_bomb_battle_outcomes_witness :
    (resolveBattle ⟨.ENGINEER, 0, true, false⟩ ⟨.BOMB_1, 1, true, false⟩).result.attackerSurvives
        = true ∧
    (resolveBattle ⟨.ENGINEER, 0, true, false⟩ ⟨.BOMB_1, 1, true, false⟩).result.defenderSurvives
        = false :=
  (C7_bomb_battle_outcomes ⟨.ENGINEER, 0, true, false⟩ ⟨.BOMB_1, 1, true, false⟩).2.1
    (Or.inl rfl) rfl

/-- A FLAG defender never survives `resolveBattle`: the flag rule fires
first in the special table, and even an MP attacker (which bypasses the
special table) beats the flag on priority. -/
theorem resolveBattle_flag_defender_dies (a t : Character)
    (h : t.type = CharacterType.FLAG) :
    (resolveBattle a t).result.defenderSurvives = false := by
  by_cases hmp : a.type = CharacterType.MP
  · simp [resolveBattle, hmp, h, resolveGeneralBattle, Character.priority, Character.reveal,
      CharacterType.priority]
  · have hne : t.type ≠ CharacterType.MP := by simp [h]
    simp [resolveBattle, hmp, hne, resolveSpecialBattle, h]

/-- C3 (amended): whenever an accepted move's battle targets the FLAG, that
`makeMove` sets `gameOver = true` and `winner` to the attacking unit's
owner.  (The unconditional "no further moves are legal" part of the claim
is refuted separately: neither `getValidMoves` nor `makeMove` consults
`gameOver`.) -/
theorem C3_flag_capture_sets_winner (s : Store) (b : GameBoard) (m : Move)
    (atk tgt : Character)
    (hatk : getCharacter s b m.fromPos = some atk)
    (htgt : getCharacter s b m.toPos = some tgt)
    (hflag : tgt.type = CharacterType.FLAG)
    (hok : (makeMove s b m).ok = true) :
    (makeMove s b m).board.gameOver = true ∧
    (makeMove s b m).board.winner = some atk.playerId := by
  simp only [getCharacter] at hatk htgt
  obtain ⟨i, hi, hsi⟩ := Option.bind_eq_some.mp hatk
  obtain ⟨j, hj, hsj⟩ := Option.bind_eq_some.mp htgt
  have hds := resolveBattle_flag_defender_dies atk tgt hflag
  simp only [makeMove, hi, hsi, hj, hsj] at hok ⊢
  by_cases hv : ((getValidMoves s b m.fromPos).any fun mv =>
      decide (mv.fromPos = m.fromPos) && decide (mv.toPos = m.toPos)) = false
  · rw [if_pos hv] at hok
    simp at hok
  · rw [if_neg hv]
    simp [hds, hflag, Character.reveal, apply_ite Character.isAlive]

/-- Witness for C3's amended theorem at the flag-capture fixture. -/
theorem C3_flag_capture_sets_winner_witness :
    (makeMove flagStore flagBoard ⟨⟨4, 1⟩, ⟨4, 2⟩⟩).board.gameOver = true ∧
    (makeMove flagStore flagBoard ⟨⟨4, 1⟩, ⟨4, 2⟩⟩).board.winner = some 1 :=
  C3_flag_capture_sets_winner flagStore flagBoard ⟨⟨4, 1⟩, ⟨4, 2⟩⟩
    ⟨.GENERAL_5, 1, true, false⟩ ⟨.FLAG, 0, true, false⟩
    (by decide) (by decide) rfl (by decide)

/-- If no character sits at a position, it generates no moves. -/
theorem getValidMoves_no_character (s : Store) (b : GameBoard) (pos : Position)
    (h : getCharacter s b pos = none) : getValidMoves s b pos = [] := by
  simp only [getValidMoves, h]

/-- `makeMove` rejects a move whose origin holds no character. -/
theorem makeMove_no_character (s : Store) (b : GameBoard) (m : Move)
    (h : getCharacter s b m.fromPos = none) : makeMove s b m = ⟨s, b, false⟩ := by
  simp only [getCharacter] at h
  cases hi : gridCell b m.fromPos with
  | none => simp only [makeMove, hi]
  | some i =>
    rw [hi] at h
    simp only [Option.some_bind] at h
    simp only [makeMove, hi, h]

/-- C2: `makeMove` succeeds exactly when the move, compared by its from/to
positions, appears in `getValidMoves(move.fromPos)`; and whenever it
returns false the whole state — store (units), grid, current player,
game-over flag, winner and battle log — is returned unchanged. -/
theorem C2_makeMove_success_iff_valid (s : Store) (b : GameBoard) (m : Move) :
    ((makeMove s b m).ok = true ↔
      ∃ mv ∈ getValidMoves s b m.fromPos, mv.fromPos = m.fromPos ∧ mv.toPos = m.toPos) ∧
    ((makeMove s b m).ok = false → makeMove s b m = ⟨s, b, false⟩) := by
  have hany : (((getValidMoves s b m.fromPos).any fun mv =>
      decide (mv.fromPos = m.fromPos) && decide (mv.toPos = m.toPos)) = true) ↔
      ∃ mv ∈ getValidMoves s b m.fromPos, mv.fromPos = m.fromPos ∧ mv.toPos = m.toPos := by
    simp [List.any_eq_true]
  cases hnc : getCharacter s b m.fromPos with
  | none =>
    have hmm := makeMove_no_character s b m hnc
    have hmv : getValidMoves s b m.fromPos = [] := getValidMoves_no_character s b m.fromPos hnc
    rw [hmm, hmv]
    refine ⟨⟨fun hc => by simp at hc, fun hex => by simp at hex⟩, fun _ => rfl⟩
  | some ch =>
    simp only [getCharacter] at hnc
    obtain ⟨i, hi, hsi⟩ := Option.bind_eq_some.mp hnc
    by_cases hv : ((getValidMoves s b m.fromPos).any fun mv =>
        decide (mv.fromPos = m.fromPos) && decide (mv.toPos = m.toPos)) = false
    · simp only [makeMove, hi, hsi]
      rw [if_pos hv]
      constructor
      · constructor
        · intro hc
          simp at hc
        · intro hex
          rw [← hany, hv] at hex
          simp at hex
      · intro _
        rfl
    · have hvt : ((getValidMoves s b m.fromPos).any fun mv =>
          decide (mv.fromPos = m.fromPos) && decide (mv.toPos = m.toPos)) = true := by
        revert hv
        cases ((getValidMoves s b m.fromPos).any fun mv =>
            decide (mv.fromPos = m.fromPos) && decide (mv.toPos = m.toPos)) <;> simp
      cases hj : gridCell b m.toPos with
      | none =>
        simp only [makeMove, hi, hsi, hj]
        rw [if_neg hv]
        exact ⟨⟨fun _ => hany.mp hvt, fun _ => rfl⟩, fun hok => by simp at hok⟩
      | some j =>
        cases hsj : s.get? j with
        | none =>
          simp only [makeMove, hi, hsi, hj, hsj]
          rw [if_neg hv]
          exact ⟨⟨fun _ => hany.mp hvt, fun _ => rfl⟩, fun hok => by simp at hok⟩
        | some tgt =>
          simp only [makeMove, hi, hsi, hj, hsj]
          rw [if_neg hv]
          exact ⟨⟨fun _ => hany.mp hvt, fun _ => rfl⟩, fun hok => by simp at hok⟩

/-- Witness for C2 at the clone fixture's attacking move. -/
theorem C2_makeMove_success_iff_valid_witness :
    ((makeMove cloneStore cloneBoard ⟨⟨4, 0⟩, ⟨4, 1⟩⟩).ok = true ↔
      ∃ mv ∈ getValidMoves cloneStore cloneBoard (⟨⟨4, 0⟩, ⟨4, 1⟩⟩ : Move).fromPos,
        mv.fromPos = (⟨⟨4, 0⟩, ⟨4, 1⟩⟩ : Move).fromPos ∧
        mv.toPos = (⟨⟨4, 0⟩, ⟨4, 1⟩⟩ : Move).toPos) ∧
    ((makeMove cloneStore cloneBoard ⟨⟨4, 0⟩, ⟨4, 1⟩⟩).ok = false →
      makeMove cloneStore cloneBoard ⟨⟨4, 0⟩, ⟨4, 1⟩⟩ = ⟨cloneStore, cloneBoard, false⟩) :=
  C2_makeMove_success_iff_valid cloneStore cloneBoard ⟨⟨4, 0⟩, ⟨4, 1⟩⟩

/-- A single cell projects identically through two stores that agree up to
hidden kinds. -/
theorem cellView_agree (s1 s2 : Store) (forPlayer : Nat)
    (hlen : s1.length = s2.length)
    (h : ∀ n, n < s1.length → viewAgree forPlayer (s1.get? n) (s2.get? n) = true)
    (cell : Option Nat) : cellView s1 forPlayer cell = cellView s2 forPlayer cell := by
  cases cell with
  | none => rfl
  | some i =>
    by_cases hi : i < s1.length
    · have hvi := h i hi
      cases h1 : s1.get? i with
      | none =>
        rw [h1] at hvi
        cases h2 : s2.get? i with
        | none => simp only [cellView, h1, h2]
        | some c2 =>
          rw [h2] at hvi
          simp [viewAgree] at hvi
      | some c1 =>
        rw [h1] at hvi
        cases h2 : s2.get? i with
        | none =>
          rw [h2] at hvi
          simp [viewAgree] at hvi
        | some c2 =>
          rw [h2] at hvi
          simp only [viewAgree, Bool.and_eq_true, Bool.or_eq_true, Bool.not_eq_true',
            decide_eq_true_eq, Bool.or_eq_false_iff, decide_eq_false_iff_not] at hvi
          obtain ⟨⟨⟨hpid, halive⟩, hrev⟩, hfull⟩ := hvi
          simp only [cellView, h1, h2]
          by_cases hshow : c1.playerId = forPlayer ∨ c1.isRevealed = true
          · have hc : c1 = c2 := by
              rcases hfull with ⟨hnp, hnr⟩ | hc
              · rcases hshow with hp | hr
                · exact absurd hp hnp
                · rw [hr] at hnr
                  simp at hnr
              · exact hc
            rw [hc]
          · push_neg at hshow
            obtain ⟨hnp, hnr⟩ := hshow
            rw [if_neg, if_neg]
            · simp [hpid, halive]
            · rw [← hpid, ← hrev]
              push_neg
              exact ⟨hnp, hnr⟩
            · push_neg
              exact ⟨hnp, hnr⟩
    · have h1 : s1.get? i = none := by
        rw [List.get?_eq_none]
        omega
      have h2 : s2.get? i = none := by
        rw [List.get?_eq_none]
        omega
      simp only [cellView, h1, h2]

/-- C8: `getBoardState(forPlayer)` leaks nothing about hidden enemy units —
two stores that agree on owner, alive and revealed state everywhere, and on
full identity for the viewer's own or revealed characters, produce the same
projection, whatever the kinds of the still-hidden opposing units are. -/
theorem C8_projection_hides_hidden_kinds (s1 s2 : Store) (b : GameBoard) (forPlayer : Nat)
    (hlen : s1.length = s2.length)
    (h : ∀ n, n < s1.length → viewAgree forPlayer (s1.get? n) (s2.get? n) = true) :
    getBoardState s1 b forPlayer = getBoardState s2 b forPlayer := by
  unfold getBoardState
  refine List.map_congr_left fun r _ => ?_
  refine List.map_congr_left fun c _ => ?_
  exact cellView_agree s1 s2 forPlayer hlen h _

/-- Witness for C8: swapping the kind of the hidden player-0 unit does not
change player 1's projection of the fixture board. -/
theorem C8_projection_hides_hidden_kinds_witness :
    getBoardState cloneStore cloneBoard 1 = getBoardState cloneStoreVariant cloneBoard 1 :=
  C8_projection_hides_hidden_kinds cloneStore cloneStoreVariant cloneBoard 1 rfl (by decide)

/-- The fold modelling the sorted-head choice never drops below any element
of the list, nor below its seed. -/
theorem pickBestWinning_ge (tl : List WinEntry) : ∀ hd : WinEntry,
    hd.priority ≤ (pickBestWinning hd tl).priority ∧
    ∀ e ∈ tl, e.priority ≤ (pickBestWinning hd tl).priority := by
  induction tl with
  | nil => exact fun hd => ⟨Nat.le_refl _, fun e he => absurd he (List.not_mem_nil e)⟩
  | cons x xs ih =>
    intro hd
    have hstep : pickBestWinning hd (x :: xs) =
        pickBestWinning (if hd.priority < x.priority then x else hd) xs := rfl
    rw [hstep]
    obtain ⟨h1, h2⟩ := ih (if hd.priority < x.priority then x else hd)
    constructor
    · refine Nat.le_trans ?_ h1
      by_cases hlt : hd.priority < x.priority
      · rw [if_pos hlt]
        exact Nat.le_of_lt hlt
      · rw [if_neg hlt]
    · intro e he
      rcases List.mem_cons.mp he with rfl | hmem
      · refine Nat.le_trans ?_ h1
        by_cases hlt : hd.priority < e.priority
        · rw [if_pos hlt]
        · rw [if_neg hlt]
          omega
      · exact h2 e hmem

/-- The fold's result is the first element of `hd :: tl` (in order) whose
priority is never strictly exceeded later: everything before it in the list
has strictly smaller priority. -/
theorem pickBestWinning_split (tl : List WinEntry) : ∀ hd : WinEntry,
    ∃ l1 l2, hd :: tl = l1 ++ (pickBestWinning hd tl) :: l2 ∧
      ∀ x ∈ l1, x.priority < (pickBestWinning hd tl).priority := by
  induction tl with
  | nil => exact fun hd => ⟨[], [], rfl, fun x hx => absurd hx (List.not_mem_nil x)⟩
  | cons x xs ih =>
    intro hd
    have hstep : pickBestWinning hd (x :: xs) =
        pickBestWinning (if hd.priority < x.priority then x else hd) xs := rfl
    by_cases hlt : hd.priority < x.priority
    · rw [hstep, if_pos hlt]
      obtain ⟨l1, l2, heq, hbnd⟩ := ih x
      refine ⟨hd :: l1, l2, ?_, ?_⟩
      · rw [List.cons_append, ← heq]
      · intro y hy
        rcases List.mem_cons.mp hy with rfl | hmem
        · have := (pickBestWinning_ge xs x).1
          omega
        · exact hbnd y hmem
    · rw [hstep, if_neg hlt]
      obtain ⟨l1, l2, heq, hbnd⟩ := ih hd
      cases l1 with
      | nil =>
        simp only [List.nil_append] at heq
        injection heq with he1 he2
        refine ⟨[], x :: xs, ?_, fun y hy => absurd hy (List.not_mem_nil y)⟩
        rw [List.nil_append, ← he1]
      | cons z l1t =>
        rw [List.cons_append] at heq
        injection heq with he1 he2
        have hhd : hd.priority < (pickBestWinning hd xs).priority := by
          have := hbnd z (List.mem_cons_self z l1t)
          rw [← he1] at this
          exact this
        refine ⟨hd :: x :: l1t, l2, ?_, ?_⟩
        · rw [List.cons_append, List.cons_append, ← he2]
        · intro y hy
          rcases List.mem_cons.mp hy with rfl | hy2
          · exact hhd
          rcases List.mem_cons.mp hy2 with rfl | hy3
          · omega
          · exact hbnd y (List.mem_cons_of_mem z hy3)

/-- C6 (amended): when class 1 (flag captures) is empty and class 2
(winning battles) is non-empty, the heuristic agent deterministically
returns the move of the first-enumerated winning battle of maximal recorded
target priority — a revealed target is recorded at its own priority and an
unrevealed one at the constant 10 — so it prefers the largest priority
number (the weakest revealed rank), with ties broken by enumeration
order. -/
theorem C6_class2_picks_first_max (s : Store) (b : GameBoard) (pid : Nat)
    (hflag : findFlagCaptureMoves s b (getAllValidMoves s b pid) = [])
    (hwin : (findWinningBattles s b (getAllValidMoves s b pid)).2 ≠ []) :
    ∃ e l1 l2,
      (findWinningBattles s b (getAllValidMoves s b pid)).2 = l1 ++ e :: l2 ∧
      basicAIMoveClass12 s b pid = some e.move ∧
      (∀ x ∈ (findWinningBattles s b (getAllValidMoves s b pid)).2,
        x.priority ≤ e.priority) ∧
      (∀ x ∈ l1, x.priority < e.priority) := by
  have hne : (getAllValidMoves s b pid).isEmpty = false := by
    cases hh : getAllValidMoves s b pid with
    | nil =>
      rw [hh] at hwin
      exact absurd rfl hwin
    | cons y ys => rfl
  cases hwl : (findWinningBattles s b (getAllValidMoves s b pid)).2 with
  | nil => exact absurd hwl hwin
  | cons e0 es =>
    have hmain : basicAIMoveClass12 s b pid = some (pickBestWinning e0 es).move := by
      simp only [basicAIMoveClass12, hne, hflag, hwl, List.isEmpty_nil, Bool.false_eq_true,
        if_false]
      simp
    obtain ⟨l1, l2, hsplit, hbnd⟩ := pickBestWinning_split es e0
    refine ⟨pickBestWinning e0 es, l1, l2, hsplit, hmain, ?_, hbnd⟩
    intro x hx
    rcases List.mem_cons.mp hx with rfl | hmem
    · exact (pickBestWinning_ge es x).1
    · exact (pickBestWinning_ge es e0).2 x hmem

/-- Witness for C6's amended theorem at the two-winning-battles fixture. -/
theorem C6_class2_picks_first_max_witness :
    ∃ e l1 l2,
      (findWinningBattles winStore winBoard (getAllValidMoves winStore winBoard 0)).2 =
        l1 ++ e :: l2 ∧
      basicAIMoveClass12 winStore winBoard 0 = some e.move ∧
      (∀ x ∈ (findWinningBattles winStore winBoard (getAllValidMoves winStore winBoard 0)).2,
        x.priority ≤ e.priority) ∧
      (∀ x ∈ l1, x.priority < e.priority) :=
  C6_class2_picks_first_max winStore winBoard 0 (by decide) (by decide)

/-- Exit analysis of the playout loop: the counter never exceeds its start
plus the fuel, and the loop only stops on a finished game, on exhausted
fuel, or with no legal moves left. -/
theorem simulateAux_spec (choice : Nat → Nat) :
    ∀ (fuel : Nat) (s : Store) (b : GameBoard) (m0 : Nat),
      (simulateAux choice fuel s b m0).2.2 ≤ m0 + fuel ∧
      ((simulateAux choice fuel s b m0).2.1.gameOver = true ∨
       (simulateAux choice fuel s b m0).2.2 = m0 + fuel ∨
       getAllValidMoves (simulateAux choice fuel s b m0).1
         (simulateAux choice fuel s b m0).2.1
         (simulateAux choice fuel s b m0).2.1.currentPlayer = []) := by
  intro fuel
  induction fuel with
  | zero =>
    intro s b m0
    simp [simulateAux]
  | succ fuel ih =>
    intro s b m0
    by_cases hg : b.gameOver = true
    · have hred : simulateAux choice (fuel + 1) s b m0 = (s, b, m0) := by
        simp [simulateAux, hg]
      rw [hred]
      exact ⟨Nat.le_add_right m0 (fuel + 1), Or.inl hg⟩
    · have hg' : b.gameOver = false := by
        revert hg
        cases b.gameOver <;> simp
      cases he : (getAllValidMoves s b b.currentPlayer).isEmpty with
      | true =>
        have hred : simulateAux choice (fuel + 1) s b m0 = (s, b, m0) := by
          simp [simulateAux, hg', he]
        rw [hred]
        refine ⟨Nat.le_add_right m0 (fuel + 1), Or.inr (Or.inr ?_)⟩
        cases hh : getAllValidMoves s b b.currentPlayer with
        | nil => rfl
        | cons y ys =>
          rw [hh] at he
          simp at he
      | false =>
        cases hsel : selectSimulationMove s b (getAllValidMoves s b b.currentPlayer)
            (choice m0) with
        | some mv =>
          have hred : simulateAux choice (fuel + 1) s b m0 =
              simulateAux choice fuel (makeMove s b mv).store (makeMove s b mv).board
                (m0 + 1) := by
            simp [simulateAux, hg', he, hsel]
          rw [hred]
          obtain ⟨ha, hb⟩ := ih (makeMove s b mv).store (makeMove s b mv).board (m0 + 1)
          refine ⟨by omega, ?_⟩
          rcases hb with h | h | h
          · exact Or.inl h
          · exact Or.inr (Or.inl (by omega))
          · exact Or.inr (Or.inr h)
        | none =>
          have hred : simulateAux choice (fuel + 1) s b m0 =
              simulateAux choice fuel s b (m0 + 1) := by
            simp [simulateAux, hg', he, hsel]
          rw [hred]
          obtain ⟨ha, hb⟩ := ih s b (m0 + 1)
          refine ⟨by omega, ?_⟩
          rcases hb with h | h | h
          · exact Or.inl h
          · exact Or.inr (Or.inl (by omega))
          · exact Or.inr (Or.inr h)

/-- C9: every simulation playout stops after at most 100 plies; the result
is either the final board's winner (exactly when that board is game-over)
or the draw marker, and it is the draw marker precisely when the playout
stopped — without the game being over — because the ply cap was reached or
no legal move remained. -/
theorem C9_simulate_draw_iff_capped (choice : Nat → Nat) (s : Store) (b : GameBoard) :
    (simulate choice s b).2 ≤ 100 ∧
    ((simulate choice s b).1 =
        SimResult.winnerOf (simulateAux choice 100 s b.clone 0).2.1.winner ∧
        (simulateAux choice 100 s b.clone 0).2.1.gameOver = true ∨
      (simulate choice s b).1 = SimResult.draw) ∧
    ((simulate choice s b).1 = SimResult.draw ↔
      (simulateAux choice 100 s b.clone 0).2.1.gameOver = false ∧
      ((simulate choice s b).2 = 100 ∨
        getAllValidMoves (simulateAux choice 100 s b.clone 0).1
          (simulateAux choice 100 s b.clone 0).2.1
          (simulateAux choice 100 s b.clone 0).2.1.currentPlayer = [])) := by
  obtain ⟨hle, hdisj⟩ := simulateAux_spec choice 100 s b.clone 0
  have h2 : (simulate choice s b).2 = (simulateAux choice 100 s b.clone 0).2.2 := rfl
  have h1 : (simulate choice s b).1 =
      (if (simulateAux choice 100 s b.clone 0).2.1.gameOver then
        SimResult.winnerOf (simulateAux choice 100 s b.clone 0).2.1.winner
      else SimResult.draw) := rfl
  refine ⟨by rw [h2]; omega, ?_, ?_⟩
  · cases hg : (simulateAux choice 100 s b.clone 0).2.1.gameOver with
    | true =>
      left
      exact ⟨by simp [h1, hg], rfl⟩
    | false =>
      right
      simp [h1, hg]
  · cases hg : (simulateAux choice 100 s b.clone 0).2.1.gameOver with
    | true =>
      constructor
      · intro hd
        rw [h1] at hd
        rw [hg] at hd
        simp at hd
      · rintro ⟨hfalse, _⟩
        simp at hfalse
    | false =>
      constructor
      · intro _
        refine ⟨rfl, ?_⟩
        rcases hdisj with h | h | h
        · rw [hg] at h
          simp at h
        · left
          rw [h2, h]
        · right
          exact h
      · intro _
        simp [h1, hg]

/-- Witness for C9 at the clone fixture with the constant-zero random
oracle. -/
theorem C9_simulate_draw_iff_capped_witness :
    (simulate (fun _ => 0) cloneStore cloneBoard).2 ≤ 100 ∧
    ((simulate (fun _ => 0) cloneStore cloneBoard).1 =
        SimResult.winnerOf
          (simulateAux (fun _ => 0) 100 cloneStore cloneBoard.clone 0).2.1.winner ∧
        (simulateAux (fun _ => 0) 100 cloneStore cloneBoard.clone 0).2.1.gameOver = true ∨
      (simulate (fun _ => 0) cloneStore cloneBoard).1 = SimResult.draw) ∧
    ((simulate (fun _ => 0) cloneStore cloneBoard).1 = SimResult.draw ↔
      (simulateAux (fun _ => 0) 100 cloneStore cloneBoard.clone 0).2.1.gameOver = false ∧
      ((simulate (fun _ => 0) cloneStore cloneBoard).2 = 100 ∨
        getAllValidMoves (simulateAux (fun _ => 0) 100 cloneStore cloneBoard.clone 0).1
          (simulateAux (fun _ => 0) 100 cloneStore cloneBoard.clone 0).2.1
          (simulateAux (fun _ => 0) 100 cloneStore cloneBoard.clone 0).2.1.currentPlayer
            = [])) :=
  C9_simulate_draw_iff_capped (fun _ => 0) cloneStore cloneBoard
